import Mathlib

/-
Verification of the TradingApp query script (src/db.py) against its
specification. The script is embedded shallowly: the CLI arguments, the two
environment variables, the MongoDB store (a map from database name and
collection name to a list of documents) and the observable effects of one
run (exit code, error message, connections opened, filters sent, selected
database and collection, and printed documents) are all explicit data.
-/

set_option autoImplicit false

namespace Db

/-- A BSON-like value stored in a document field. `objectId` stands for the
native ObjectId type whose printable form is its hex string; `str` and
`int` are ordinary string and integer fields. -/
inductive Value where
  | str : String → Value
  | int : Int → Value
  | objectId : String → Value
deriving DecidableEq, Repr

/-- Model of Python `str(v)` on the values above: a string is itself, an
integer prints in decimal, an ObjectId prints as its hex string. -/
def pyStr : Value → String
  | .str s => s
  | .int n => toString n
  | .objectId h => h

/-- A document is an ordered mapping from field name to value. -/
abbrev Document := List (String × Value)

/-- A query filter: a mapping from field name to expected string value.
The script only ever puts string values in the filter. -/
abbrev Query := List (String × String)

/-- The characters Python `str.strip()` removes (ASCII whitespace). -/
def isPyWs (c : Char) : Bool :=
  c == ' ' || c == '\t' || c == '\n' || c == '\r' || c == '\x0b' || c == '\x0c'

/-- Model of Python `str.strip()`: drop whitespace from both ends. -/
def pyStrip (s : String) : String :=
  String.mk (((s.toList.dropWhile isPyWs).reverse.dropWhile isPyWs).reverse)

/-- Model of Python `str.upper()` restricted to ASCII letters, which is all
the script's inputs use. -/
def pyUpper (s : String) : String :=
  String.mk (s.toList.map Char.toUpper)

/-- Python truthiness of an optional string: `None` and `""` are falsy. -/
def truthy : Option String → Bool
  | none => false
  | some s => s != ""

/-- Python `a or b` on an optional string with a string fallback, as in
`os.getenv("MONGODB_DB") or "TradingApp"`. -/
def pyOr (o : Option String) (dflt : String) : String :=
  match o with
  | some s => if s == "" then dflt else s
  | none => dflt

/-- The environment variables the script reads. -/
structure Env where
  mongodbUri : Option String
  mongodbDb : Option String
deriving DecidableEq

/-- The parsed command-line arguments; `none` means the flag was not
passed. -/
structure Args where
  dbName : Option String
  collection : Option String
  symbol : Option String
  limit : Option Int
deriving DecidableEq

/-- argparse default for `--db-name`: the flag value if passed, else
`os.getenv("MONGODB_DB") or "TradingApp"` (src/db.py line 12). -/
def resolveDbName (argDb envDb : Option String) : String :=
  argDb.getD (pyOr envDb "TradingApp")

/-- argparse default for `--collection`: the flag value if passed, else the
literal `"HistoricalData"` (src/db.py line 17). -/
def resolveCollection (argColl : Option String) : String :=
  argColl.getD "HistoricalData"

/-- Filter construction (src/db.py lines 39-41): start from the empty
mapping; if `args.symbol` is truthy, set `query["symbol"]` to the stripped,
uppercased value. -/
def buildQuery (symbol : Option String) : Query :=
  match symbol with
  | none => []
  | some s => if s == "" then [] else [("symbol", pyUpper (pyStrip s))]

/-- Whether a document matches a filter: every filter entry must equal the
document's field of that name (MongoDB equality match on `find`). -/
def matchesQuery (q : Query) (d : Document) : Bool :=
  q.all (fun kv => d.lookup kv.1 == some (Value.str kv.2))

/-- Cursor limiting (src/db.py lines 44-45): `if args.limit and
args.limit > 0: cursor = cursor.limit(args.limit)`. A limit is applied only
when it is truthy (nonzero) and positive. -/
def applyLimit (limit : Option Int) (docs : List Document) : List Document :=
  match limit with
  | none => docs
  | some n => if n ≠ 0 ∧ 0 < n then docs.take n.toNat else docs

/-- The replacement value of the `_id` field: `str(document["_id"])`. -/
def convertVal (v : Value) : Value :=
  Value.str (pyStr v)

/-- Rewrite of a document's entries sending the `_id` field to its textual
form and keeping every other entry as is. -/
def convertEntries (d : Document) : Document :=
  d.map (fun kv => if kv.1 = "_id" then (kv.1, convertVal kv.2) else kv)

/-- The `_id` conversion (src/db.py lines 48-49): if the document has an
`_id` field, replace its value by its `str(...)` form. -/
def convertId (d : Document) : Document :=
  if (d.lookup "_id").isSome then convertEntries d else d

/-- The observable effects of one run of the script. `filtersSent` lists
the filter of each `find` executed against the store, `selections` the
(database, collection) pairs selected, and `outputLines` the documents
printed, one per line. -/
structure Run where
  exitCode : Nat
  message : Option String
  connectionsOpened : Nat
  selections : List (String × String)
  filtersSent : List Query
  outputLines : List Document
deriving DecidableEq

/-- The whole script (src/db.py `main`). The store is a map from database
name and collection name to the list of documents in that collection, in
the store's natural return order. A missing or empty `MONGODB_URI` raises
`SystemExit` with a message, before any connection is made; otherwise one
connection is opened, one query executed, the cursor optionally limited,
and each document printed after `_id` conversion. -/
def main (env : Env) (args : Args) (store : String → String → List Document) :
    Run :=
  if truthy env.mongodbUri then
    let dbName := resolveDbName args.dbName env.mongodbDb
    let collName := resolveCollection args.collection
    let query := buildQuery args.symbol
    let matched := (store dbName collName).filter (matchesQuery query)
    let limited := applyLimit args.limit matched
    { exitCode := 0
      message := none
      connectionsOpened := 1
      selections := [(dbName, collName)]
      filtersSent := [query]
      outputLines := limited.map convertId }
  else
    { exitCode := 1
      message := some "MONGODB_URI environment variable is not set."
      connectionsOpened := 0
      selections := []
      filtersSent := []
      outputLines := [] }

/-- Claim C1: if MONGODB_URI is unset or empty, the program exits with a
non-zero status and a descriptive message, opens no connection, sends no
query, and emits no document output. -/
theorem c1_missing_uri_fatal (env : Env) (args : Args)
    (store : String → String → List Document)
    (h : env.mongodbUri = none ∨ env.mongodbUri = some "") :
    (main env args store).exitCode ≠ 0 ∧
    (main env args store).message =
      some "MONGODB_URI environment variable is not set." ∧
    (main env args store).connectionsOpened = 0 ∧
    (main env args store).filtersSent = [] ∧
    (main env args store).outputLines = [] := by
  have ht : truthy env.mongodbUri = false := by
    rcases h with h | h <;> simp [truthy, h]
  simp [main, ht]

/-- Witness for C1 at the concrete environment with no variables set. -/
theorem c1_missing_uri_fatal_witness :
    (main ⟨none, none⟩ ⟨none, none, none, none⟩ (fun _ _ => [])).exitCode ≠ 0 ∧
    (main ⟨none, none⟩ ⟨none, none, none, none⟩ (fun _ _ => [])).message =
      some "MONGODB_URI environment variable is not set." ∧
    (main ⟨none, none⟩ ⟨none, none, none, none⟩
      (fun _ _ => [])).connectionsOpened = 0 ∧
    (main ⟨none, none⟩ ⟨none, none, none, none⟩ (fun _ _ => [])).filtersSent = [] ∧
    (main ⟨none, none⟩ ⟨none, none, none, none⟩ (fun _ _ => [])).outputLines = [] :=
  c1_missing_uri_fatal ⟨none, none⟩ ⟨none, none, none, none⟩ (fun _ _ => [])
    (Or.inl rfl)

/-- Counterexample to claim C2 as stated: for the invocation supplying
`--symbol` with the empty string, the filter sent to the store is empty,
not the mapping sending "symbol" to upper(trim("")) = "". -/
theorem c2_counterexample :
    (main ⟨some "mongodb://localhost", none⟩ ⟨none, none, some "", none⟩
      (fun _ _ => [])).filtersSent ≠ [[("symbol", pyUpper (pyStrip ""))]] := by
  decide

/-- Claim C2 (amended: the supplied symbol value must be non-empty, since
Python truthiness skips the filter for the empty string — see C10): for
every invocation with the URI set where --symbol is supplied with a
non-empty value s, the filter sent to the store equals
[("symbol", upper(trim(s)))]. -/
theorem c2_symbol_filter_normalized (env : Env) (args : Args)
    (store : String → String → List Document)
    (hu : truthy env.mongodbUri = true)
    (s : String) (hs : args.symbol = some s) (hne : s ≠ "") :
    (main env args store).filtersSent = [[("symbol", pyUpper (pyStrip s))]] := by
  simp [main, hu, buildQuery, hs, hne]

/-- Witness for C2 at the value " foo ", also checking that the stripped,
uppercased value is "FOO". -/
theorem c2_symbol_filter_normalized_witness :
    (main ⟨some "mongodb://localhost", none⟩ ⟨none, none, some " foo ", none⟩
      (fun _ _ => [])).filtersSent = [[("symbol", pyUpper (pyStrip " foo "))]] ∧
    pyUpper (pyStrip " foo ") = "FOO" :=
  ⟨c2_symbol_filter_normalized ⟨some "mongodb://localhost", none⟩
      ⟨none, none, some " foo ", none⟩ (fun _ _ => []) rfl " foo " rfl
      (by decide),
   by decide⟩

/-- Claim C3: when --limit is supplied with a positive integer N, at most N
documents are emitted. -/
theorem c3_limit_caps_output (env : Env) (args : Args)
    (store : String → String → List Document)
    (n : Int) (hl : args.limit = some n) (hn : 0 < n) :
    ((main env args store).outputLines).length ≤ n.toNat := by
  cases hu : truthy env.mongodbUri
  · simp [main, hu]
  · have hcond : n ≠ 0 ∧ 0 < n := ⟨by omega, hn⟩
    simp only [main, hu, if_true, applyLimit, hl]
    rw [if_pos hcond]
    simp [List.length_take]

/-- Witness for C3: limit 2 over a three-document store emits at most two
lines. -/
theorem c3_limit_caps_output_witness :
    (0 : Int) < 2 ∧
    ((main ⟨some "mongodb://localhost", none⟩ ⟨none, none, none, some 2⟩
      (fun _ _ => [[("a", Value.int 1)], [("a", Value.int 2)],
        [("a", Value.int 3)]])).outputLines).length ≤ (2 : Int).toNat :=
  ⟨by decide,
   c3_limit_caps_output ⟨some "mongodb://localhost", none⟩
     ⟨none, none, none, some 2⟩
     (fun _ _ => [[("a", Value.int 1)], [("a", Value.int 2)],
       [("a", Value.int 3)]]) 2 rfl (by decide)⟩

/-- Claim C4: when --limit is supplied with zero or a negative integer, the
run is identical to the run without --limit: the limit is ignored and every
matching document is emitted. -/
theorem c4_nonpositive_limit_ignored (env : Env) (args : Args)
    (store : String → String → List Document)
    (n : Int) (hl : args.limit = some n) (hn : n ≤ 0) :
    main env args store = main env { args with limit := none } store := by
  have hcond : ¬ (n ≠ 0 ∧ 0 < n) := by omega
  cases hu : truthy env.mongodbUri <;>
    simp [main, hu, applyLimit, hl, hcond]

/-- Witness for C4 at limit -1 over a one-document store. -/
theorem c4_nonpositive_limit_ignored_witness :
    (-1 : Int) ≤ 0 ∧
    main ⟨some "mongodb://localhost", none⟩ ⟨none, none, none, some (-1)⟩
      (fun _ _ => [[("a", Value.int 1)]]) =
    main ⟨some "mongodb://localhost", none⟩ ⟨none, none, none, none⟩
      (fun _ _ => [[("a", Value.int 1)]]) :=
  ⟨by decide,
   c4_nonpositive_limit_ignored ⟨some "mongodb://localhost", none⟩
     ⟨none, none, none, some (-1)⟩ (fun _ _ => [[("a", Value.int 1)]])
     (-1) rfl (by decide)⟩

/-- Looking up the id field after the entry rewrite yields the converted
value. -/
theorem lookup_convertEntries_id (l : List (String × Value)) :
    (convertEntries l).lookup "_id" = (l.lookup "_id").map convertVal := by
  induction l with
  | nil => rfl
  | cons hd tl ih =>
    obtain ⟨k, v⟩ := hd
    have hmap : convertEntries ((k, v) :: tl) =
        (if k = "_id" then (k, convertVal v) else (k, v)) :: convertEntries tl :=
      rfl
    by_cases hk : k = "_id"
    · subst hk
      rw [hmap, if_pos rfl]
      simp [List.lookup_cons]
    · have hne : ("_id" == k) = false := beq_eq_false_iff_ne.mpr (Ne.symm hk)
      rw [hmap, if_neg hk, List.lookup_cons, List.lookup_cons, hne]
      exact ih

/-- Looking up any other field after the entry rewrite is unchanged. -/
theorem lookup_convertEntries_other (l : List (String × Value))
    (k : String) (hk : k ≠ "_id") :
    (convertEntries l).lookup k = l.lookup k := by
  induction l with
  | nil => rfl
  | cons hd tl ih =>
    obtain ⟨k0, v⟩ := hd
    have hmap : convertEntries ((k0, v) :: tl) =
        (if k0 = "_id" then (k0, convertVal v) else (k0, v)) ::
          convertEntries tl :=
      rfl
    by_cases hk0 : k0 = "_id"
    · subst hk0
      have hne : (k == "_id") = false := beq_eq_false_iff_ne.mpr hk
      rw [hmap, if_pos rfl, List.lookup_cons, List.lookup_cons, hne]
      exact ih
    · rw [hmap, if_neg hk0, List.lookup_cons, List.lookup_cons]
      cases hkk : k == k0
      · exact ih
      · rfl

/-- If the document has an id field, the converted document holds its
textual form there. -/
theorem convertId_lookup_id (d : Document) (v : Value)
    (hv : d.lookup "_id" = some v) :
    (convertId d).lookup "_id" = some (Value.str (pyStr v)) := by
  rw [convertId, if_pos (by simp [hv]), lookup_convertEntries_id, hv]
  rfl

/-- The conversion leaves every field other than the id untouched. -/
theorem convertId_lookup_other (d : Document) (k : String) (hk : k ≠ "_id") :
    (convertId d).lookup k = d.lookup k := by
  rw [convertId]
  split
  · exact lookup_convertEntries_other d k hk
  · rfl

/-- A document without an id field is left entirely unchanged. -/
theorem convertId_no_id (d : Document) (h : d.lookup "_id" = none) :
    convertId d = d := by
  simp [convertId, h]

/-- Claim C5: every document emitted by a run whose id field is present
renders that field as the text string produced by string conversion of the
original value, never the native representation. -/
theorem c5_id_emitted_as_text (env : Env) (args : Args)
    (store : String → String → List Document)
    (d : Document) (hd : d ∈ (main env args store).outputLines)
    (v : Value) (hv : d.lookup "_id" = some v) :
    ∃ d0 v0, d = convertId d0 ∧ d0.lookup "_id" = some v0 ∧
      v = Value.str (pyStr v0) := by
  cases hu : truthy env.mongodbUri
  · simp [main, hu] at hd
  · simp only [main, hu, if_true] at hd
    rw [List.mem_map] at hd
    obtain ⟨d0, hmem, rfl⟩ := hd
    cases h0 : d0.lookup "_id" with
    | none =>
      rw [convertId_no_id d0 h0, h0] at hv
      exact absurd hv (by simp)
    | some v0 =>
      refine ⟨d0, v0, rfl, h0, ?_⟩
      have hc := convertId_lookup_id d0 v0 h0
      rw [hc] at hv
      exact (Option.some.injEq _ _ ▸ hv).symm

/-- Witness for C5: a store holding one document with a native ObjectId;
the emitted line carries the hex text instead. -/
theorem c5_id_emitted_as_text_witness :
    ∃ d0 v0, [("_id", Value.str "0123abcd")] = convertId d0 ∧
      List.lookup "_id" d0 = some v0 ∧
      Value.str "0123abcd" = Value.str (pyStr v0) :=
  c5_id_emitted_as_text ⟨some "mongodb://localhost", none⟩
    ⟨none, none, none, none⟩
    (fun _ _ => [[("_id", Value.objectId "0123abcd")]])
    [("_id", Value.str "0123abcd")] (by decide)
    (Value.str "0123abcd") (by decide)

/-- Claim C6: without --symbol the filter sent to the store is the empty
mapping, and the empty mapping matches every document. -/
theorem c6_no_symbol_empty_filter (env : Env) (args : Args)
    (store : String → String → List Document) (d : Document)
    (hu : truthy env.mongodbUri = true) (hs : args.symbol = none) :
    (main env args store).filtersSent = [[]] ∧ matchesQuery [] d = true := by
  constructor
  · simp [main, hu, buildQuery, hs]
  · rfl

/-- Witness for C6 at a concrete invocation and document. -/
theorem c6_no_symbol_empty_filter_witness :
    (main ⟨some "mongodb://localhost", none⟩ ⟨none, none, none, none⟩
      (fun _ _ => [])).filtersSent = [[]] ∧
    matchesQuery [] [("symbol", Value.str "AAPL")] = true :=
  c6_no_symbol_empty_filter ⟨some "mongodb://localhost", none⟩
    ⟨none, none, none, none⟩ (fun _ _ => [])
    [("symbol", Value.str "AAPL")] rfl rfl

/-- Claim C7: the run selects the database and collection given by the
resolution rules, where a missing --db-name falls back to a set and
non-empty MONGODB_DB and then to "TradingApp", a missing --collection is
"HistoricalData", and an explicit flag always wins. -/
theorem c7_config_resolution (env : Env) (args : Args)
    (store : String → String → List Document)
    (hu : truthy env.mongodbUri = true)
    (s c d : String) (e : Option String) (hs : s ≠ "") :
    (main env args store).selections =
      [(resolveDbName args.dbName env.mongodbDb,
        resolveCollection args.collection)] ∧
    resolveDbName none (some s) = s ∧
    resolveDbName none (some "") = "TradingApp" ∧
    resolveDbName none none = "TradingApp" ∧
    resolveDbName (some d) e = d ∧
    resolveCollection none = "HistoricalData" ∧
    resolveCollection (some c) = c := by
  refine ⟨by simp [main, hu], ?_, rfl, rfl, rfl, rfl, rfl⟩
  simp [resolveDbName, pyOr, hs]

/-- Witness for C7 at a concrete invocation with MONGODB_DB set. -/
theorem c7_config_resolution_witness :
    (main ⟨some "mongodb://localhost", some "Other"⟩ ⟨none, none, none, none⟩
      (fun _ _ => [])).selections =
      [(resolveDbName none (some "Other"), resolveCollection none)] ∧
    resolveDbName none (some "Other") = "Other" ∧
    resolveDbName none (some "") = "TradingApp" ∧
    resolveDbName none none = "TradingApp" ∧
    resolveDbName (some "Mine") (some "Other") = "Mine" ∧
    resolveCollection none = "HistoricalData" ∧
    resolveCollection (some "Prices") = "Prices" :=
  c7_config_resolution ⟨some "mongodb://localhost", some "Other"⟩
    ⟨none, none, none, none⟩ (fun _ _ => []) rfl
    "Other" "Prices" "Mine" (some "Other") (by decide)

/-- Limiting a cursor never introduces documents. -/
theorem mem_applyLimit (limit : Option Int) (docs : List Document)
    (d : Document) (hd : d ∈ applyLimit limit docs) : d ∈ docs := by
  cases limit with
  | none => exact hd
  | some n =>
    rw [applyLimit] at hd
    split at hd
    · exact List.mem_of_mem_take hd
    · exact hd

/-- Claim C8: with the URI set, a query that matches no document emits no
output lines and exits with status 0. -/
theorem c8_zero_matches_clean_exit (env : Env) (args : Args)
    (store : String → String → List Document)
    (hu : truthy env.mongodbUri = true)
    (hz : (store (resolveDbName args.dbName env.mongodbDb)
        (resolveCollection args.collection)).filter
          (matchesQuery (buildQuery args.symbol)) = []) :
    (main env args store).exitCode = 0 ∧
    (main env args store).outputLines = [] := by
  cases hl : args.limit with
  | none => simp [main, hu, hz, applyLimit, hl]
  | some n => simp [main, hu, hz, applyLimit, hl]

/-- Witness for C8 over the empty store. -/
theorem c8_zero_matches_clean_exit_witness :
    (main ⟨some "mongodb://localhost", none⟩ ⟨none, none, none, none⟩
      (fun _ _ => [])).exitCode = 0 ∧
    (main ⟨some "mongodb://localhost", none⟩ ⟨none, none, none, none⟩
      (fun _ _ => [])).outputLines = [] :=
  c8_zero_matches_clean_exit ⟨some "mongodb://localhost", none⟩
    ⟨none, none, none, none⟩ (fun _ _ => []) rfl (by decide)

/-- Claim C9: every emitted document is the in-place id conversion of a
stored document: every field other than the id is looked up unchanged, and
a document without an id field is printed entirely unmodified. -/
theorem c9_only_id_mutated (env : Env) (args : Args)
    (store : String → String → List Document)
    (d : Document) (hd : d ∈ (main env args store).outputLines)
    (k : String) (hk : k ≠ "_id") :
    ∃ d0, d0 ∈ store (resolveDbName args.dbName env.mongodbDb)
        (resolveCollection args.collection) ∧
      d = convertId d0 ∧ d.lookup k = d0.lookup k ∧
      (d0.lookup "_id" = none → d = d0) := by
  cases hu : truthy env.mongodbUri
  · simp [main, hu] at hd
  · simp only [main, hu, if_true] at hd
    rw [List.mem_map] at hd
    obtain ⟨d0, hmem, rfl⟩ := hd
    have hfil := mem_applyLimit args.limit _ d0 hmem
    exact ⟨d0, List.mem_of_mem_filter hfil, rfl,
      convertId_lookup_other d0 k hk, fun h0 => convertId_no_id d0 h0⟩

/-- Witness for C9: a document with an extra price field keeps that field
through the id conversion. -/
theorem c9_only_id_mutated_witness :
    ∃ d0, d0 ∈ [[("_id", Value.objectId "0123abcd"), ("price", Value.int 7)]] ∧
      [("_id", Value.str "0123abcd"), ("price", Value.int 7)] = convertId d0 ∧
      List.lookup "price"
        [("_id", Value.str "0123abcd"), ("price", Value.int 7)] =
        List.lookup "price" d0 ∧
      (List.lookup "_id" d0 = none →
        [("_id", Value.str "0123abcd"), ("price", Value.int 7)] = d0) :=
  c9_only_id_mutated ⟨some "mongodb://localhost", none⟩
    ⟨none, none, none, none⟩
    (fun _ _ => [[("_id", Value.objectId "0123abcd"), ("price", Value.int 7)]])
    [("_id", Value.str "0123abcd"), ("price", Value.int 7)] (by decide)
    "price" (by decide)

/-- A string made only of whitespace strips to the empty string. -/
theorem pyStrip_of_all_ws (s : String) (h : s.toList.all isPyWs = true) :
    pyStrip s = "" := by
  have h1 : s.toList.dropWhile isPyWs = [] := by
    rw [List.dropWhile_eq_nil_iff]
    intro x hx
    exact List.all_eq_true.mp h x hx
  rw [pyStrip, h1]
  rfl

/-- Claim C10: supplying --symbol with the empty string leaves the filter
empty (Python truthiness treats it as unset), while supplying a non-empty
whitespace-only value sends the filter mapping "symbol" to the empty
string. -/
theorem c10_empty_vs_whitespace_symbol (env1 env2 : Env)
    (args1 args2 : Args) (store1 store2 : String → String → List Document)
    (s : String)
    (hu1 : truthy env1.mongodbUri = true)
    (hu2 : truthy env2.mongodbUri = true)
    (h1 : args1.symbol = some "")
    (h2 : args2.symbol = some s) (hne : s ≠ "")
    (hws : s.toList.all isPyWs = true) :
    (main env1 args1 store1).filtersSent = [[]] ∧
    (main env2 args2 store2).filtersSent = [[("symbol", "")]] := by
  constructor
  · simp [main, hu1, buildQuery, h1]
  · have hupper : pyUpper (pyStrip s) = "" := by
      rw [pyStrip_of_all_ws s hws]
      rfl
    simp [main, hu2, buildQuery, h2, hne, hupper]

/-- Witness for C10: the empty symbol against a single-space symbol. -/
theorem c10_empty_vs_whitespace_symbol_witness :
    (main ⟨some "mongodb://localhost", none⟩ ⟨none, none, some "", none⟩
      (fun _ _ => [])).filtersSent = [[]] ∧
    (main ⟨some "mongodb://localhost", none⟩ ⟨none, none, some " ", none⟩
      (fun _ _ => [])).filtersSent = [[("symbol", "")]] :=
  c10_empty_vs_whitespace_symbol ⟨some "mongodb://localhost", none⟩
    ⟨some "mongodb://localhost", none⟩ ⟨none, none, some "", none⟩
    ⟨none, none, some " ", none⟩ (fun _ _ => []) (fun _ _ => []) " "
    rfl rfl rfl rfl (by decide) (by decide)

end Db
